import Mathlib

/-!
Verification development for `CHT/extract_haplotype_read_counts.py` (WASP).

The Python source is shallowly embedded below.  Conventions:

* Python ints are `Int` (Python 2 integer division `/` is floor division,
  `Int.fdiv`); genomic positions are 1-based as in the data model.
* HDF5 "tracks" are embedded as partial maps from node names (`"/chr1"`)
  to dense per-position arrays (`List Int`); `getNode` failure is the
  `noSuchNodeError` outcome.
* Fallible code returns `Except PyError`.  Raising an exception is
  `Except.error`; evaluating a name that is bound nowhere in the module
  raises `PyError.nameError` — the module's bound names are listed in
  `moduleNames` and the local names in scope at the relevant program
  points are spelled out at each use of `nameDefined`.
* `np.random.randint(2)` draws are modelled by an explicit stream of
  draws (`List Nat`, head consumed first, empty stream reads as 0).
* Genotype probabilities (floats in the source) are modelled as `Rat`;
  no claim below depends on floating-point rounding.
-/

/-- Errors raised by the embedded Python code. -/
inductive PyError where
  | nameError (n : String)
  | valueError (msg : String)
  | coordError (msg : String)
  | indexError
  | keyError
  | noSuchNodeError
  /-- Marker for branches that cannot be given semantics because they are
  only reachable if an unbound name had a value; such branches are dead. -/
  | notModelled (what : String)
deriving DecidableEq

/-- Source line 83: `SNP_UNDEF = -1`. -/
def SNP_UNDEF : Int := -1

/-- Source line 84: `HAP_UNDEF = -1`. -/
def HAP_UNDEF : Int := -1

/-- A chromosome record from the external `chromosome` module:
name and length in basepairs. -/
structure Chromosome where
  name : String
  length : Int
deriving DecidableEq

/-- Modelled from the spec: the external `coord.Coord` of the genome
library — a chromosome together with a 1-based inclusive start/end. -/
structure Coord where
  chrom : Chromosome
  start : Int
  «end» : Int
deriving DecidableEq

/-- Modelled from the spec: `coord.Coord.length()`, the natural length of a
1-based inclusive interval (the spec's example `[100,149]` has length 50). -/
def Coord.length (c : Coord) : Int := c.«end» - c.start + 1

/-- One row of the `impute2/snps` HDF5 table (source lines 282-285 read the
fields `pos`, `name`, `allele1`, `allele2`). -/
structure SnpRow where
  pos : Int
  name : String
  allele1 : String
  allele2 : String
deriving DecidableEq

/-- Source class `SNP` (lines 87-93) plus the per-individual attributes that
`get_region_snps` attaches (lines 288-296) and the count attributes that
`set_snp_counts` attaches (lines 397-422).  Attributes attached later in the
source are `Option`-valued count fields (unset = `none`); `het_prob`,
`geno_sum`, `haps` and `linkage_prob` are always attached by
`get_region_snps` before any use, so they are plain fields. -/
structure SNP where
  chrom : Chromosome
  pos : Int
  name : String
  ref_allele : String
  alt_allele : String
  het_prob : Rat := 0
  geno_sum : Rat := 0
  haps : Int × Int := (HAP_UNDEF, HAP_UNDEF)
  linkage_prob : Rat := 1
  ref_hap_count : Option Int := none
  alt_hap_count : Option Int := none
  other_count : Option Int := none
deriving DecidableEq

/-- A count track HDF5 file: node name to dense 0-based per-position array. -/
abbrev H5File := String → Option (List Int)

/-- Source class `DataFiles` (lines 98-110): the open HDF5 handles. -/
structure DataFiles where
  ref_count_h5 : H5File
  alt_count_h5 : H5File
  other_count_h5 : H5File
  read_count_h5 : H5File
  snp_tab_h5 : String → Option (List SnpRow)
  snp_index_h5 : String → Option (List Int)
  geno_prob_h5 : String → Option (List (List Rat))
  hap_h5 : String → Option (List (List Int))

/-- The command-line options consulted by the embedded functions
(`args.homozygous_as_counts`, `args.target_region_size`).  The option value
is kept as a string, as in the source, so that the unknown-policy error
branch (source line 412) is represented. -/
structure Args where
  homozygous_as_counts : String
  target_region_size : Option Int := none

/-- Python slice bound normalization for `xs[l:r]`: negative indices count
from the end, and bounds are clamped to `[0, len]`. -/
def pySliceBound (len : Nat) (i : Int) : Nat :=
  if i < 0 then min ((len : Int) + i).toNat len else min i.toNat len

/-- Python slice `xs[l:r]`. -/
def pySlice (xs : List α) (l r : Int) : List α :=
  (xs.take (pySliceBound xs.length r)).drop (pySliceBound xs.length l)

/-- Split a character list at every occurrence of `sep` (Python
`str.split(sep)` for a one-character separator, which is the only kind the
source uses). -/
def splitOnCharAux (sep : Char) : List Char → List Char → List (List Char)
  | [], acc => [acc.reverse]
  | c :: rest, acc =>
    if c = sep then acc.reverse :: splitOnCharAux sep rest []
    else splitOnCharAux sep rest (c :: acc)

def splitOnChar (sep : Char) (s : List Char) : List (List Char) :=
  splitOnCharAux sep s []

/-- Python `str.split(sep)` for a one-character separator. -/
def pySplitOn (s : String) (sep : Char) : List String :=
  (splitOnChar sep s.data).map String.mk

/-- Split on runs of whitespace, dropping empty pieces. -/
def splitWsAux : List Char → List Char → List (List Char)
  | [], acc => if acc.isEmpty then [] else [acc.reverse]
  | c :: rest, acc =>
    if c.isWhitespace then
      if acc.isEmpty then splitWsAux rest []
      else acc.reverse :: splitWsAux rest []
    else splitWsAux rest (c :: acc)

/-- Python `str.split()` with no argument: split on runs of whitespace,
dropping empty pieces. -/
def pySplitWhitespace (s : String) : List String :=
  (splitWsAux s.data []).map String.mk

/-- Python `str.rstrip()`. -/
def pyRstrip (s : String) : String :=
  String.mk (s.data.reverse.dropWhile Char.isWhitespace).reverse

/-- Digits-only parse of a character list (none on empty or non-digit). -/
def charsToNat? : List Char → Option Nat
  | [] => none
  | cs => cs.foldl (fun acc c =>
      match acc with
      | none => none
      | some n => if c.isDigit then some (n * 10 + (c.toNat - 48)) else none)
      (some 0)

/-- Python `int(s)` for the plain integer literals appearing in input files
(an optional sign followed by digits); anything else raises `ValueError`. -/
def pyInt (s : String) : Except PyError Int :=
  match (match s.data with
    | '-' :: rest => (charsToNat? rest).map (fun n => -(n : Int))
    | cs => (charsToNat? cs).map (fun n => (n : Int))) with
  | some v => Except.ok v
  | none => Except.error (PyError.valueError "invalid literal for int")

/-- Python `str.replace(pat, rep)`: replace every non-overlapping
occurrence, left to right.  Fuel-based structural recursion (the fuel is the
input length; each step consumes at least one character). -/
def pyReplaceFuel (pat rep : List Char) : Nat → List Char → List Char
  | 0, xs => xs
  | _ + 1, [] => []
  | fuel + 1, c :: rest =>
    if pat ≠ [] ∧ pat.isPrefixOf (c :: rest) then
      rep ++ pyReplaceFuel pat rep fuel ((c :: rest).drop pat.length)
    else c :: pyReplaceFuel pat rep fuel rest

def pyReplace (s pat rep : String) : String :=
  String.mk (pyReplaceFuel pat.data rep.data s.data.length s.data)

/-- Python `str.startswith`. -/
def pyStartsWith (s pre : String) : Bool :=
  pre.data.isPrefixOf s.data

/-- Python `sep.join(parts)`. -/
def pyJoin (sep : String) (parts : List String) : String :=
  String.mk (((parts.map String.data).intersperse sep.data).flatten)

/-- `np.random.randint(2)`: consume one draw from the stream. -/
def np_random_randint2 (rng : List Nat) : Nat × List Nat :=
  (rng.headD 0, rng.tail)

/-- `haps[i]` for the two-element haplotype array (`i` is always 0 or 1 in
the source: `ref_idx`/`alt_idx` take no other values). -/
def hapAt (p : Int × Int) (i : Nat) : Int :=
  if i = 0 then p.1 else p.2

/-- Every name bound at module level in the source file: the imports
(lines 71-81), the two constants (83-84), the two classes and the ten
functions.  Python name resolution falls through locals to these globals and
then to builtins; none of the names looked up via `nameDefined` below
(`snp_indx_tab`, `gdb`, `dt`, `CoordError`, `genome`) is a Python builtin. -/
def moduleNames : List String :=
  ["argparse", "np", "sys", "gzip", "tables", "chromosome", "chromstat",
   "coord", "SNP_UNDEF", "HAP_UNDEF", "SNP", "DataFiles", "parse_args",
   "get_region_snps", "get_het_snps", "lookup_individual_index",
   "set_snp_counts", "write_header", "write_NA_line", "write_output",
   "get_genomewide_count", "get_region_read_counts", "get_target_regions",
   "main"]

/-- Whether a name resolves, given the local names in scope. -/
def nameDefined (locals : List String) (n : String) : Bool :=
  locals.contains n || moduleNames.contains n

/-- Source lines 274-298, body of the per-offset loop of `get_region_snps`:
build one `SNP` record from row `i` of the SNP/genotype/haplotype tables. -/
def buildRegionSnp (region : Coord) (snp_tab : List SnpRow)
    (hap_tab : List (List Int)) (geno_tab : List (List Rat))
    (ind_idx : Nat) (i : Int) : Except PyError SNP :=
  match snp_tab[i.toNat]? with
  | none => Except.error PyError.indexError
  | some snp_row =>
    match geno_tab[i.toNat]?, hap_tab[i.toNat]? with
    | some geno_row, some hap_row =>
      let geno_probs := pySlice geno_row (ind_idx * 3) (ind_idx * 3 + 3)
      let haps := pySlice hap_row (ind_idx * 2) (ind_idx * 2 + 2)
      match geno_probs[1]?, geno_probs[2]?, haps[0]?, haps[1]? with
      | some g1, some g2, some hapA, some hapB =>
        Except.ok
          { chrom := region.chrom, pos := snp_row.pos, name := snp_row.name,
            ref_allele := snp_row.allele1, alt_allele := snp_row.allele2,
            het_prob := g1, geno_sum := g1 + 2 * g2, haps := (hapA, hapB),
            linkage_prob := 1 }
      | _, _, _, _ => Except.error PyError.indexError
    | _, _ => Except.error PyError.indexError

/-- The local names in scope inside the `for region in region_list` loop of
`get_region_snps` (source lines 265-298). -/
def getRegionSnpsLocals : List String :=
  ["data_files", "region_list", "ind_idx", "chrom", "node_name", "snp_tab",
   "hap_tab", "geno_tab", "snp_idx_tab", "region_snps", "region", "snp_idx",
   "offsets", "test_snp", "offset", "i", "snp_row", "geno_probs", "haps",
   "snp"]

/-- Source lines 263-300, the `for region in region_list` loop of
`get_region_snps`.  Line 267 raises via the unqualified name `CoordError`
and line 270 reads `snp_indx_tab`; neither name is bound anywhere (the SNP
index node was bound as `snp_idx_tab` on line 261), so either statement,
when reached, raises `NameError`.  The guarded branches record what the
code would do if the names resolved (for `snp_indx_tab`, slicing the SNP
index node): they are dead. -/
def get_region_snps_loop (snp_tab : List SnpRow) (hap_tab : List (List Int))
    (geno_tab : List (List Rat)) (snp_idx_tab : List Int) (ind_idx : Nat)
    (chrom : Chromosome) :
    List Coord → List SNP → Except PyError (List SNP)
  | [], region_snps => Except.ok region_snps
  | region :: rest, region_snps =>
    if region.chrom.name ≠ chrom.name then
      if nameDefined getRegionSnpsLocals "CoordError" then
        Except.error
          (PyError.coordError "only regions on same chromosome are supported")
      else
        Except.error (PyError.nameError "CoordError")
    else if nameDefined getRegionSnpsLocals "snp_indx_tab" then
      match
        (let snp_idx := pySlice snp_idx_tab (region.start - 1) region.«end»
         let offsets := (List.range snp_idx.length).filter
           (fun k => snp_idx[k]? != some SNP_UNDEF)
         offsets.mapM (fun offset =>
           match snp_idx[offset]? with
           | some i => buildRegionSnp region snp_tab hap_tab geno_tab ind_idx i
           | none => Except.error PyError.indexError)) with
      | Except.error e => Except.error e
      | Except.ok new_snps =>
        get_region_snps_loop snp_tab hap_tab geno_tab snp_idx_tab ind_idx
          chrom rest (region_snps ++ new_snps)
    else
      Except.error (PyError.nameError "snp_indx_tab")

/-- Source lines 247-300, `get_region_snps`.  The empty-list check on
line 252 raises via `genome.coord.CoordError`, but `genome` is never
imported, so that statement raises `NameError` when reached. -/
def get_region_snps (data_files : DataFiles) (region_list : List Coord)
    (ind_idx : Nat) : Except PyError (List SNP) :=
  match region_list with
  | [] =>
    if nameDefined ["data_files", "region_list", "ind_idx"] "genome" then
      Except.error (PyError.coordError "expected at least one coordinate, got 0")
    else
      Except.error (PyError.nameError "genome")
  | r0 :: _ =>
    let chrom := r0.chrom
    let node_name := "/" ++ chrom.name
    match data_files.snp_tab_h5 node_name, data_files.hap_h5 node_name,
        data_files.geno_prob_h5 node_name,
        data_files.snp_index_h5 node_name with
    | some snp_tab, some hap_tab, some geno_tab, some snp_idx_tab =>
      get_region_snps_loop snp_tab hap_tab geno_tab snp_idx_tab ind_idx
        chrom region_list []
    | _, _, _, _ => Except.error PyError.noSuchNodeError

/-- Source lines 304-311, `get_het_snps`: keep the SNPs whose two haplotype
allele indices differ, preserving order. -/
def get_het_snps (snp_list : List SNP) : List SNP :=
  snp_list.filter (fun snp => snp.haps.1 != snp.haps.2)

/-- Source lines 316-340, `lookup_individual_index`.  The sample file is an
external text file; its lines are passed in directly (resolving the path and
the stderr logging are I/O plumbing).  Each line is tokenized as by
`line.rstrip().split()`; the first token has every occurrence of `"NA"`
removed by `words[0].replace("NA", "")` before comparison.  A blank line
makes `words[0]` raise `IndexError`; exhausting the file raises
`ValueError` (source line 339). -/
def lookup_individual_index_scan (ind_name : String) :
    List String → Nat → Except PyError Nat
  | [], _ =>
    Except.error (PyError.valueError "individual is not in samples file")
  | line :: rest, idx =>
    match (pySplitWhitespace (pyRstrip line))[0]? with
    | none => Except.error PyError.indexError
    | some w0 =>
      if pyReplace w0 "NA" "" = ind_name then Except.ok idx
      else lookup_individual_index_scan ind_name rest (idx + 1)

def lookup_individual_index (sample_lines : List String)
    (ind_name : String) : Except PyError Nat :=
  lookup_individual_index_scan ind_name sample_lines 0

/-- Source lines 350-375, step 1 of `set_snp_counts`: establish the
`(ref_idx, alt_idx)` pair from the test SNP, or fall back.  The phased test
is `test_snp and (test_snp.haps[0] != test_snp.haps[1]) and
(test_snp.haps[0] != HAP_UNDEF)` — only the first haplotype index is
compared against `HAP_UNDEF`.  The fallback draws one `randint(2)` under
`rand_hap` and otherwise leaves the pair unestablished (`none`); no error
can be raised here. -/
def phase_fallback (options : Args) (rng : List Nat) :
    Option (Nat × Nat) × List Nat :=
  if options.homozygous_as_counts = "rand_hap" then
    let p := np_random_randint2 rng
    if p.1 = 0 then (some (0, 1), p.2) else (some (1, 0), p.2)
  else
    (none, rng)

/-- Source lines 350-375 continued: the phased test and the dispatch to the
fallback. -/
def phase_reference (test_snp : Option SNP) (options : Args)
    (rng : List Nat) : Option (Nat × Nat) × List Nat :=
  match test_snp with
  | some ts =>
    if ts.haps.1 ≠ ts.haps.2 ∧ ts.haps.1 ≠ HAP_UNDEF then
      if ts.haps.1 = 0 then (some (0, 1), rng) else (some (1, 0), rng)
    else phase_fallback options rng
  | none => phase_fallback options rng

/-- Source lines 392-424, the per-SNP body of the inner loop of
`set_snp_counts`: if the SNP lies inside the current region, read the three
raw counts at its offset, set `other_count`, and assign the
haplotype-labelled counts according to the established `(ref_idx, alt_idx)`
pair or the fallback policy. -/
def set_one_snp (options : Args) (ref_alt : Option (Nat × Nat))
    (ref_counts alt_counts other_counts : List Int) (region : Coord)
    (snp : SNP) (rng : List Nat) : Except PyError (SNP × List Nat) :=
  if region.start ≤ snp.pos ∧ snp.pos ≤ region.«end» then
    let offset := (snp.pos - region.start).toNat
    match ref_counts[offset]?, alt_counts[offset]?, other_counts[offset]? with
    | some ref_count, some alt_count, some oc =>
      let snp := { snp with other_count := some oc }
      match ref_alt with
      | none =>
        if options.homozygous_as_counts = "zero" then
          Except.ok ({ snp with ref_hap_count := some 0,
                                alt_hap_count := some 0 }, rng)
        else if options.homozygous_as_counts = "rand_allele" then
          let p := np_random_randint2 rng
          if p.1 = 0 then
            Except.ok ({ snp with ref_hap_count := some ref_count,
                                  alt_hap_count := some alt_count }, p.2)
          else
            Except.ok ({ snp with ref_hap_count := some alt_count,
                                  alt_hap_count := some ref_count }, p.2)
        else
          Except.error (PyError.valueError
            ("unknown homozygous_as_counts option "
              ++ options.homozygous_as_counts))
      | some (ref_idx, _alt_idx) =>
        if hapAt snp.haps ref_idx = 0 then
          Except.ok ({ snp with ref_hap_count := some ref_count,
                                alt_hap_count := some alt_count }, rng)
        else if hapAt snp.haps ref_idx = 1 then
          Except.ok ({ snp with ref_hap_count := some alt_count,
                                alt_hap_count := some ref_count }, rng)
        else
          Except.error (PyError.valueError "expected haplotype to be defined")
    | _, _, _ => Except.error PyError.indexError
  else
    Except.ok (snp, rng)

/-- Source lines 389-424, the `for snp in snps` loop: process every SNP in
order against the current region, threading the random stream. -/
def set_snps_loop (options : Args) (ref_alt : Option (Nat × Nat))
    (ref_counts alt_counts other_counts : List Int) (region : Coord) :
    List SNP → List Nat → Except PyError (List SNP × List Nat)
  | [], rng => Except.ok ([], rng)
  | snp :: rest, rng =>
    match set_one_snp options ref_alt ref_counts alt_counts other_counts
        region snp rng with
    | Except.error e => Except.error e
    | Except.ok (snp', rng') =>
      match set_snps_loop options ref_alt ref_counts alt_counts other_counts
          region rest rng' with
      | Except.error e => Except.error e
      | Except.ok (rest', rng'') => Except.ok (snp' :: rest', rng'')

/-- Source lines 378-424, the `for region in region_list` loop of
`set_snp_counts`: fetch the three count nodes for the region's chromosome,
slice them over the region, and run the SNP loop. -/
def set_regions_loop (data_files : DataFiles) (options : Args)
    (ref_alt : Option (Nat × Nat)) :
    List Coord → List SNP → List Nat → Except PyError (List SNP × List Nat)
  | [], snps, rng => Except.ok (snps, rng)
  | region :: rest, snps, rng =>
    let node_name := "/" ++ region.chrom.name
    match data_files.ref_count_h5 node_name, data_files.alt_count_h5 node_name,
        data_files.other_count_h5 node_name with
    | some refN, some altN, some otherN =>
      match set_snps_loop options ref_alt
          (pySlice refN (region.start - 1) region.«end»)
          (pySlice altN (region.start - 1) region.«end»)
          (pySlice otherN (region.start - 1) region.«end»)
          region snps rng with
      | Except.error e => Except.error e
      | Except.ok (snps', rng') =>
        set_regions_loop data_files options ref_alt rest snps' rng'
    | _, _, _ => Except.error PyError.noSuchNodeError

/-- Source lines 345-424, `set_snp_counts`: establish the phase reference
from the test SNP (or the fallback policy), then assign counts to every
provided SNP in every region.  Returns the updated SNP list and the
remaining random stream. -/
def set_snp_counts (data_files : DataFiles) (region_list : List Coord)
    (snps : List SNP) (test_snp : Option SNP) (options : Args)
    (rng : List Nat) : Except PyError (List SNP × List Nat) :=
  let p := phase_reference test_snp options rng
  set_regions_loop data_files options p.1 region_list snps p.2

/-- The raw reference-matching count stored at 1-based position `pos` on the
chromosome of region `r` (the track arrays are 0-based). -/
def rawRef (data_files : DataFiles) (r : Coord) (pos : Int) : Option Int :=
  (data_files.ref_count_h5 ("/" ++ r.chrom.name)).bind
    (fun arr => arr[(pos - 1).toNat]?)

/-- The raw alternate-matching count at 1-based position `pos` on the
chromosome of region `r`. -/
def rawAlt (data_files : DataFiles) (r : Coord) (pos : Int) : Option Int :=
  (data_files.alt_count_h5 ("/" ++ r.chrom.name)).bind
    (fun arr => arr[(pos - 1).toNat]?)

/-- The raw other-allele count at 1-based position `pos` on the chromosome
of region `r`. -/
def rawOther (data_files : DataFiles) (r : Coord) (pos : Int) : Option Int :=
  (data_files.other_count_h5 ("/" ++ r.chrom.name)).bind
    (fun arr => arr[(pos - 1).toNat]?)

/-- Source lines 542-552: recenter a region around its midpoint to the
target size and clamp.  Python 2 `/` on ints is floor division
(`Int.fdiv`). -/
def resize_region (size : Int) (chrom : Chromosome) (start «end» : Int) :
    Coord :=
  let mid := (start + «end»).fdiv 2
  let s1 := mid - size.fdiv 2
  let e1 := mid + size.fdiv 2
  let s2 := if s1 < 1 then 1 else s1
  let e2 := if e1 > chrom.length then chrom.length else e1
  ⟨chrom, s2, e2⟩

/-- Source lines 522-556, `get_target_regions`: split the semicolon-joined
start and end lists (`words[7]`, `words[8]`), check their lengths match,
parse each pair, and apply the size override when `args.target_region_size`
is truthy (Python: `None` and `0` are falsy) and differs from the natural
length. -/
def get_target_regions (args : Args) (chrom : Chromosome)
    (words : List String) : Except PyError (List Coord) :=
  match words[7]?, words[8]? with
  | some w7, some w8 =>
    let start_words := pySplitOn w7 ';'
    let end_words := pySplitOn w8 ';' 
    if start_words.length ≠ end_words.length then
      Except.error
        (PyError.coordError "number of start and end positions do not match")
    else
      (start_words.zip end_words).mapM (fun p =>
        match pyInt p.1, pyInt p.2 with
        | Except.ok start, Except.ok «end» =>
          let region : Coord := ⟨chrom, start, «end»⟩
          match args.target_region_size with
          | some size =>
            if size ≠ 0 ∧ region.length ≠ size then
              Except.ok (resize_region size chrom start «end»)
            else
              Except.ok region
          | none => Except.ok region
        | Except.error e, _ => Except.error e
        | _, Except.error e => Except.error e)
  | _, _ => Except.error PyError.indexError

/-- Source lines 448-449, `write_NA_line`: the emitted row. -/
def write_NA_line : String :=
  pyJoin " " (List.replicate 15 "NA") ++ "\n"

/-- Source lines 504-506, `get_genomewide_count`.  The body passes `gdb` to
`chromstat.get_stats`, but `gdb` is bound nowhere (locals are `h5file` and
`chrom_list`), so evaluating the argument raises `NameError` before
`get_stats` is ever called; the guarded branch is dead. -/
def get_genomewide_count (h5file : H5File) (chrom_list : List Chromosome) :
    Except PyError Int :=
  if nameDefined ["h5file", "chrom_list"] "gdb" then
    Except.error (PyError.notModelled "gdb has no value")
  else
    Except.error (PyError.nameError "gdb")

/-- The local names in scope in `main` at line 618. -/
def mainLocals : List String :=
  ["args", "ind_idx", "data_files", "chrom_list", "chrom_dict",
   "genomewide_read_counts", "f", "line_count", "line", "words",
   "chrom_name", "chrom", "region_list", "snp_pos", "snp_ref_base",
   "snp_alt_base", "snp_region", "region_snps"]

/-- Source lines 592-618, the per-line body of `main`'s input loop, up to
the point where execution cannot proceed: line 618 reads the unbound name
`dt` (`get_region_snps(dt, [snp_region], ind_idx)`), which raises
`NameError`, so the lines after it are unreachable on every input line
that gets that far.  A comment line writes nothing; a line whose second
field is `"NA"` writes the `write_NA_line` row and does no further work.
The returned list holds the lines written to standard output. -/
def main_process_line (chrom_dict : String → Option Chromosome) (args : Args)
    (data_files : DataFiles) (ind_idx : Nat) (line : String) :
    Except PyError (List String) :=
  if pyStartsWith line "#" then Except.ok []
  else
    let words := pySplitWhitespace (pyRstrip line)
    match words[1]? with
    | none => Except.error PyError.indexError
    | some w1 =>
      if w1 = "NA" then Except.ok [write_NA_line]
      else
        match words[0]? with
        | none => Except.error PyError.indexError
        | some chrom_name =>
          match chrom_dict chrom_name with
          | none => Except.error PyError.keyError
          | some chrom =>
            match get_target_regions args chrom words with
            | Except.error e => Except.error e
            | Except.ok region_list =>
              match pyInt w1 with
              | Except.error e => Except.error e
              | Except.ok snp_pos =>
                match words[3]?, words[4]? with
                | some _snp_ref_base, some _snp_alt_base =>
                  let _snp_region : Coord := ⟨chrom, snp_pos, snp_pos⟩
                  match get_region_snps data_files region_list ind_idx with
                  | Except.error e => Except.error e
                  | Except.ok _region_snps =>
                    if nameDefined mainLocals "dt" then
                      Except.error (PyError.notModelled "dt has no value")
                    else
                      Except.error (PyError.nameError "dt")
                | _, _ => Except.error PyError.indexError

/-- The sample-list normalization as the spec's words describe it, for
comparison with the source's `replace("NA", "")`: strip a fixed `"NA"`
prefix from an entry. -/
def specStripNAFront (s : String) : String :=
  if pyStartsWith s "NA" then String.mk (s.data.drop 2) else s

/-- Proof-infrastructure view of `set_regions_loop`: how one region of the
`for region in region_list` loop acts on a single SNP (the loop is
elementwise in the SNP list, so its effect factors through this step; the
random stream is irrelevant when no draw is consulted and is passed as
`[]`). -/
def region_elem_step (data_files : DataFiles) (options : Args)
    (p : Option (Nat × Nat)) (region : Coord) (s : SNP) :
    Except PyError SNP :=
  let node_name := "/" ++ region.chrom.name
  match data_files.ref_count_h5 node_name, data_files.alt_count_h5 node_name,
      data_files.other_count_h5 node_name with
  | some refN, some altN, some otherN =>
    Except.map Prod.fst
      (set_one_snp options p (pySlice refN (region.start - 1) region.«end»)
        (pySlice altN (region.start - 1) region.«end»)
        (pySlice otherN (region.start - 1) region.«end») region s [])
  | _, _, _ => Except.error PyError.noSuchNodeError

/-- Proof-infrastructure: the successive effect of every region of the list
on a single SNP. -/
def region_elem_trace (data_files : DataFiles) (options : Args)
    (p : Option (Nat × Nat)) : List Coord → SNP → Except PyError SNP
  | [], s => Except.ok s
  | region :: rest, s =>
    match region_elem_step data_files options p region s with
    | Except.error e => Except.error e
    | Except.ok s' => region_elem_trace data_files options p rest s'

/-- Containment of a position in a region, as tested on source line 392. -/
def containsPos (r : Coord) (pos : Int) : Prop :=
  r.start ≤ pos ∧ pos ≤ r.«end»

instance (r : Coord) (pos : Int) : Decidable (containsPos r pos) :=
  inferInstanceAs (Decidable (r.start ≤ pos ∧ pos ≤ r.«end»))

/-- Concrete fixtures used by the closed example theorems below. -/
def exChrom : Chromosome := ⟨"chr1", 1000⟩

def exChromShort : Chromosome := ⟨"chr1", 120⟩

def exChromB : Chromosome := ⟨"chr2", 500⟩

def exRegion : Coord := ⟨exChrom, 1, 3⟩

/-- A SNP on `exChrom` with the given position and haplotype pair. -/
def exSnp (pos : Int) (h : Int × Int) : SNP :=
  { chrom := exChrom, pos := pos, name := "snp", ref_allele := "A",
    alt_allele := "T", haps := h }

/-- Tracks on `"/chr1"`: raw ref counts 5, alt counts 3, other counts 2 at
every position of a 3-bp chromosome slice. -/
def exDataFiles : DataFiles :=
  { ref_count_h5 := fun n => if n = "/chr1" then some [5, 5, 5] else none,
    alt_count_h5 := fun n => if n = "/chr1" then some [3, 3, 3] else none,
    other_count_h5 := fun n => if n = "/chr1" then some [2, 2, 2] else none,
    read_count_h5 := fun _ => none,
    snp_tab_h5 := fun _ => none,
    snp_index_h5 := fun _ => none,
    geno_prob_h5 := fun _ => none,
    hap_h5 := fun _ => none }

def emptyDataFiles : DataFiles :=
  { ref_count_h5 := fun _ => none, alt_count_h5 := fun _ => none,
    other_count_h5 := fun _ => none, read_count_h5 := fun _ => none,
    snp_tab_h5 := fun _ => none, snp_index_h5 := fun _ => none,
    geno_prob_h5 := fun _ => none, hap_h5 := fun _ => none }

/-- SNP-information files with a `"/chr1"` node whose index table holds one
indexed SNP (row 3). -/
def exDataFilesIdx : DataFiles :=
  { ref_count_h5 := fun _ => none, alt_count_h5 := fun _ => none,
    other_count_h5 := fun _ => none, read_count_h5 := fun _ => none,
    snp_tab_h5 := fun n => if n = "/chr1" then some [] else none,
    snp_index_h5 := fun n => if n = "/chr1" then some [3] else none,
    geno_prob_h5 := fun n => if n = "/chr1" then some [] else none,
    hap_h5 := fun n => if n = "/chr1" then some [] else none }

def zeroArgs : Args := { homozygous_as_counts := "zero" }

def args20 : Args := { homozygous_as_counts := "zero", target_region_size := some 20 }

def args200 : Args := { homozygous_as_counts := "zero", target_region_size := some 200 }

/-- An input line's fields: test SNP at 500, one sub-interval `[100,149]`. -/
def exWords : List String :=
  ["chr1", "500", "x", "A", "T", "x", "x", "100", "149"]

/-- The record `set_snp_counts` produces for `exSnp 2 (0, 1)` on
`exDataFiles` when the phased branch keeps the raw orientation. -/
def exC3out : SNP :=
  { (exSnp 2 (0, 1)) with
    ref_hap_count := some 5
    alt_hap_count := some 3
    other_count := some 2 }

lemma pySliceBound_le (len : Nat) (i : Int) : pySliceBound len i ≤ len := by
  unfold pySliceBound
  split <;> omega

lemma pySlice_getElem_some {α : Type _} {xs : List α} {l r : Int} {k : Nat}
    {v : α} (hl : 0 ≤ l) (h : (pySlice xs l r)[k]? = some v) :
    xs[l.toNat + k]? = some v := by
  unfold pySlice at h
  rw [List.getElem?_drop, List.getElem?_take] at h
  split at h
  · rename_i hb
    have h1 : pySliceBound xs.length r ≤ xs.length := pySliceBound_le _ _
    have h0 : pySliceBound xs.length l + k < xs.length := by omega
    have h2 : pySliceBound xs.length l = l.toNat := by
      unfold pySliceBound at h0 ⊢
      rw [if_neg (by omega)] at h0 ⊢
      omega
    rwa [h2] at h
  · exact absurd h (by simp)

lemma set_one_snp_ok_fields {options : Args} {p : Option (Nat × Nat)}
    {rc ac oc : List Int} {r : Coord} {s : SNP} {rng : List Nat} {s' : SNP}
    {rng₂ : List Nat}
    (h : set_one_snp options p rc ac oc r s rng = Except.ok (s', rng₂)) :
    s'.pos = s.pos ∧ s'.haps = s.haps := by
  unfold set_one_snp at h
  split at h
  · cases h1 : rc[(s.pos - r.start).toNat]? <;>
      cases h2 : ac[(s.pos - r.start).toNat]? <;>
      cases h3 : oc[(s.pos - r.start).toNat]? <;>
      simp only [h1, h2, h3] at h
    all_goals try exact Except.noConfusion h
    repeat' split at h
    all_goals try exact Except.noConfusion h
    all_goals simp only [Except.ok.injEq, Prod.mk.injEq] at h
    all_goals exact ⟨by rw [← h.1], by rw [← h.1]⟩
  · simp only [Except.ok.injEq, Prod.mk.injEq] at h
    exact ⟨by rw [← h.1], by rw [← h.1]⟩

lemma set_one_snp_not_contained {options : Args} {p : Option (Nat × Nat)}
    {rc ac oc : List Int} {r : Coord} {s : SNP} {rng : List Nat}
    (h : ¬(r.start ≤ s.pos ∧ s.pos ≤ r.«end»)) :
    set_one_snp options p rc ac oc r s rng = Except.ok (s, rng) := by
  unfold set_one_snp
  rw [if_neg h]

lemma set_one_snp_nodraw {options : Args} {p : Option (Nat × Nat)}
    {rc ac oc : List Int} {r : Coord} {s : SNP} (rng rng' : List Nat)
    (hnd : p.isSome ∨ options.homozygous_as_counts = "zero") :
    set_one_snp options p rc ac oc r s rng =
      Except.map (fun q => (q.1, rng))
        (set_one_snp options p rc ac oc r s rng') := by
  unfold set_one_snp
  split
  · cases h1 : rc[(s.pos - r.start).toNat]? <;>
      cases h2 : ac[(s.pos - r.start).toNat]? <;>
      cases h3 : oc[(s.pos - r.start).toNat]? <;>
      simp only [h1, h2, h3, Except.map]
    cases p with
    | none =>
      rcases hnd with hnd | hnd
      · simp at hnd
      · simp [hnd]
    | some q =>
      obtain ⟨ri, ai⟩ := q
      by_cases hh : hapAt s.haps ri = 0
      · simp [hh]
      · by_cases hh2 : hapAt s.haps ri = 1 <;> simp [hh, hh2]
  · simp [Except.map]

lemma set_snps_loop_nodraw {options : Args} {p : Option (Nat × Nat)}
    {rc ac oc : List Int} {region : Coord} (snps : List SNP)
    (rng rng' : List Nat)
    (hnd : p.isSome ∨ options.homozygous_as_counts = "zero") :
    set_snps_loop options p rc ac oc region snps rng =
      Except.map (fun q => (q.1, rng))
        (set_snps_loop options p rc ac oc region snps rng') := by
  induction snps generalizing rng rng' with
  | nil => simp [set_snps_loop, Except.map]
  | cons s rest ih =>
    unfold set_snps_loop
    rw [set_one_snp_nodraw rng rng' hnd]
    cases hx : set_one_snp options p rc ac oc region s rng' with
    | error e => simp [Except.map]
    | ok q =>
      obtain ⟨s', rngq⟩ := q
      simp only [Except.map]
      rw [ih rng rngq]
      cases hy : set_snps_loop options p rc ac oc region rest rngq with
      | error e => simp [Except.map]
      | ok q2 =>
        obtain ⟨l, rng2⟩ := q2
        simp [Except.map]

lemma set_snps_loop_elem {options : Args} {p : Option (Nat × Nat)}
    {rc ac oc : List Int} {region : Coord} (snps : List SNP) (rng : List Nat)
    (l : List SNP) (rng₂ : List Nat)
    (hnd : p.isSome ∨ options.homozygous_as_counts = "zero")
    (h : set_snps_loop options p rc ac oc region snps rng =
      Except.ok (l, rng₂)) :
    rng₂ = rng ∧ l.length = snps.length ∧
      ∀ (k : Nat) (s₀ s₁ : SNP), snps[k]? = some s₀ → l[k]? = some s₁ →
        set_one_snp options p rc ac oc region s₀ rng = Except.ok (s₁, rng) := by
  induction snps generalizing rng l rng₂ with
  | nil =>
    unfold set_snps_loop at h
    simp only [Except.ok.injEq, Prod.mk.injEq] at h
    obtain ⟨hl, hr⟩ := h
    subst hl
    subst hr
    exact ⟨rfl, rfl, fun k s₀ s₁ h0 _ => by simp at h0⟩
  | cons s rest ih =>
    unfold set_snps_loop at h
    cases hx : set_one_snp options p rc ac oc region s rng with
    | error e =>
      simp only [hx] at h
      exact Except.noConfusion h
    | ok q =>
      obtain ⟨s', rngq⟩ := q
      have hmap : set_one_snp options p rc ac oc region s rng =
          Except.map (fun q => (q.1, rng))
            (set_one_snp options p rc ac oc region s rng) :=
        set_one_snp_nodraw rng rng hnd
      rw [hx] at hmap
      simp only [Except.map, Except.ok.injEq, Prod.mk.injEq] at hmap
      have hrq : rngq = rng := hmap.2
      subst hrq
      simp only [hx] at h
      cases hy : set_snps_loop options p rc ac oc region rest rngq with
      | error e =>
        simp only [hy] at h
        exact Except.noConfusion h
      | ok q2 =>
        obtain ⟨l', rng''⟩ := q2
        simp only [hy, Except.ok.injEq, Prod.mk.injEq] at h
        obtain ⟨hl, hrng⟩ := h
        obtain ⟨ih1, ih2, ih3⟩ := ih rngq l' rng'' hy
        subst hl
        refine ⟨by rw [← hrng, ih1], by simp [ih2], ?_⟩
        intro k s₀ s₁ hk0 hk1
        cases k with
        | zero =>
          simp only [List.getElem?_cons_zero, Option.some.injEq] at hk0 hk1
          rw [← hk0, ← hk1]
          exact hx
        | succ k' =>
          simp only [List.getElem?_cons_succ] at hk0 hk1
          exact ih3 k' s₀ s₁ hk0 hk1

lemma set_regions_loop_nodraw {data_files : DataFiles} {options : Args}
    {p : Option (Nat × Nat)} (regions : List Coord) (snps : List SNP)
    (rng rng' : List Nat)
    (hnd : p.isSome ∨ options.homozygous_as_counts = "zero") :
    set_regions_loop data_files options p regions snps rng =
      Except.map (fun q => (q.1, rng))
        (set_regions_loop data_files options p regions snps rng') := by
  induction regions generalizing snps rng rng' with
  | nil => simp [set_regions_loop, Except.map]
  | cons r rest ih =>
    unfold set_regions_loop
    cases hn1 : data_files.ref_count_h5 ("/" ++ r.chrom.name) <;>
      cases hn2 : data_files.alt_count_h5 ("/" ++ r.chrom.name) <;>
      cases hn3 : data_files.other_count_h5 ("/" ++ r.chrom.name) <;>
      simp only [hn1, hn2, hn3, Except.map]
    rename_i refN altN otherN
    rw [set_snps_loop_nodraw snps rng rng' hnd]
    cases hy : set_snps_loop options p (pySlice refN (r.start - 1) r.«end»)
        (pySlice altN (r.start - 1) r.«end»)
        (pySlice otherN (r.start - 1) r.«end») r snps rng' with
    | error e => simp [Except.map]
    | ok q =>
      obtain ⟨snps', rngq⟩ := q
      simp only [Except.map]
      exact ih snps' rng rngq

lemma set_regions_loop_elem {data_files : DataFiles} {options : Args}
    {p : Option (Nat × Nat)} (regions : List Coord) (snps : List SNP)
    (rng : List Nat) (l : List SNP) (rng₂ : List Nat)
    (hnd : p.isSome ∨ options.homozygous_as_counts = "zero")
    (h : set_regions_loop data_files options p regions snps rng =
      Except.ok (l, rng₂)) :
    rng₂ = rng ∧ l.length = snps.length ∧
      ∀ (k : Nat) (s₀ s₁ : SNP), snps[k]? = some s₀ → l[k]? = some s₁ →
        region_elem_trace data_files options p regions s₀ = Except.ok s₁ := by
  induction regions generalizing snps rng l rng₂ with
  | nil =>
    unfold set_regions_loop at h
    simp only [Except.ok.injEq, Prod.mk.injEq] at h
    obtain ⟨hl, hr⟩ := h
    subst hl
    subst hr
    refine ⟨rfl, rfl, ?_⟩
    intro k s₀ s₁ hk0 hk1
    rw [hk0, Option.some.injEq] at hk1
    subst hk1
    rfl
  | cons r rest ih =>
    unfold set_regions_loop at h
    cases hn1 : data_files.ref_count_h5 ("/" ++ r.chrom.name) <;>
      cases hn2 : data_files.alt_count_h5 ("/" ++ r.chrom.name) <;>
      cases hn3 : data_files.other_count_h5 ("/" ++ r.chrom.name) <;>
      simp only [hn1, hn2, hn3] at h
    all_goals try exact Except.noConfusion h
    rename_i refN altN otherN
    cases hy : set_snps_loop options p (pySlice refN (r.start - 1) r.«end»)
        (pySlice altN (r.start - 1) r.«end»)
        (pySlice otherN (r.start - 1) r.«end») r snps rng with
    | error e =>
      simp only [hy] at h
      exact Except.noConfusion h
    | ok q =>
      obtain ⟨mid, rngq⟩ := q
      simp only [hy] at h
      obtain ⟨hq1, hq2, hq3⟩ := set_snps_loop_elem snps rng mid rngq hnd hy
      subst hq1
      obtain ⟨ih1, ih2, ih3⟩ := ih mid rngq l rng₂ h
      refine ⟨ih1, by rw [ih2, hq2], ?_⟩
      intro k s₀ s₁ hk0 hk1
      have hks : k < snps.length := by
        by_contra hge
        rw [List.getElem?_eq_none (by omega)] at hk0
        exact Option.noConfusion hk0
      have hkm : k < mid.length := by rw [hq2]; exact hks
      have hm : mid[k]? = some (mid.get ⟨k, hkm⟩) := by
        rw [List.getElem?_eq_getElem hkm]
        rfl
      have hone := hq3 k s₀ (mid.get ⟨k, hkm⟩) hk0 hm
      have hzero : set_one_snp options p (pySlice refN (r.start - 1) r.«end»)
          (pySlice altN (r.start - 1) r.«end»)
          (pySlice otherN (r.start - 1) r.«end») r s₀ [] =
          Except.map (fun q => (q.1, ([] : List Nat)))
            (set_one_snp options p (pySlice refN (r.start - 1) r.«end»)
              (pySlice altN (r.start - 1) r.«end»)
              (pySlice otherN (r.start - 1) r.«end») r s₀ rngq) :=
        set_one_snp_nodraw [] rngq hnd
      rw [hone] at hzero
      have hstep : region_elem_step data_files options p r s₀ =
          Except.ok (mid.get ⟨k, hkm⟩) := by
        unfold region_elem_step
        simp only [hn1, hn2, hn3, hzero, Except.map]
      unfold region_elem_trace
      rw [hstep]
      exact ih3 k (mid.get ⟨k, hkm⟩) s₁ hm hk1

lemma region_elem_step_fields {data_files : DataFiles} {options : Args}
    {p : Option (Nat × Nat)} {region : Coord} {s s' : SNP}
    (h : region_elem_step data_files options p region s = Except.ok s') :
    s'.pos = s.pos ∧ s'.haps = s.haps := by
  unfold region_elem_step at h
  cases hn1 : data_files.ref_count_h5 ("/" ++ region.chrom.name) <;>
    cases hn2 : data_files.alt_count_h5 ("/" ++ region.chrom.name) <;>
    cases hn3 : data_files.other_count_h5 ("/" ++ region.chrom.name) <;>
    simp only [hn1, hn2, hn3] at h
  all_goals try exact Except.noConfusion h
  rename_i refN altN otherN
  cases hx : set_one_snp options p (pySlice refN (region.start - 1) region.«end»)
      (pySlice altN (region.start - 1) region.«end»)
      (pySlice otherN (region.start - 1) region.«end») region s [] with
  | error e =>
    rw [hx] at h
    exact Except.noConfusion h
  | ok q =>
    obtain ⟨s'', rngq⟩ := q
    rw [hx] at h
    simp only [Except.map, Except.ok.injEq] at h
    rw [← h]
    exact set_one_snp_ok_fields hx

lemma region_elem_step_not_contained {data_files : DataFiles} {options : Args}
    {p : Option (Nat × Nat)} {region : Coord} {s s' : SNP}
    (hnc : ¬ containsPos region s.pos)
    (h : region_elem_step data_files options p region s = Except.ok s') :
    s' = s := by
  unfold region_elem_step at h
  cases hn1 : data_files.ref_count_h5 ("/" ++ region.chrom.name) <;>
    cases hn2 : data_files.alt_count_h5 ("/" ++ region.chrom.name) <;>
    cases hn3 : data_files.other_count_h5 ("/" ++ region.chrom.name) <;>
    simp only [hn1, hn2, hn3] at h
  all_goals try exact Except.noConfusion h
  rw [set_one_snp_not_contained hnc] at h
  simp only [Except.map, Except.ok.injEq] at h
  exact h.symm

lemma region_elem_trace_post {data_files : DataFiles} {options : Args}
    {p : Option (Nat × Nat)} (Post : SNP → Prop) (all : List Coord)
    (H : ∀ r ∈ all, ∀ (s s' : SNP), containsPos r s.pos →
      region_elem_step data_files options p r s = Except.ok s' → Post s') :
    ∀ (rl : List Coord), (∀ r ∈ rl, r ∈ all) → ∀ (s s' : SNP),
      region_elem_trace data_files options p rl s = Except.ok s' →
      s'.pos = s.pos ∧ ((∃ r ∈ rl, containsPos r s.pos) → Post s') := by
  intro rl
  induction rl with
  | nil =>
    intro _ s s' h
    unfold region_elem_trace at h
    simp only [Except.ok.injEq] at h
    subst h
    exact ⟨rfl, by rintro ⟨r, hr, _⟩; simp at hr⟩
  | cons r rest ih =>
    intro hsub s s' h
    unfold region_elem_trace at h
    cases hx : region_elem_step data_files options p r s with
    | error e =>
      rw [hx] at h
      exact Except.noConfusion h
    | ok s₁ =>
      rw [hx] at h
      have hpos1 := region_elem_step_fields hx
      have hrest := ih (fun r' hr' => hsub r' (List.mem_cons_of_mem r hr')) s₁ s' h
      refine ⟨by rw [hrest.1, hpos1.1], ?_⟩
      rintro ⟨r', hr', hc⟩
      by_cases hrc : ∃ r'' ∈ rest, containsPos r'' s₁.pos
      · exact hrest.2 hrc
      · rcases List.mem_cons.mp hr' with hr0 | hrm
        · subst hr0
          have hP : Post s₁ := H r' (hsub r' (List.mem_cons_self r' rest)) s s₁ hc hx
          have hkeep : ∀ (rl' : List Coord) (t t' : SNP),
              (∀ r'' ∈ rl', ¬ containsPos r'' t.pos) →
              region_elem_trace data_files options p rl' t = Except.ok t' →
              t' = t := by
            intro rl'
            induction rl' with
            | nil =>
              intro t t' _ ht
              unfold region_elem_trace at ht
              simp only [Except.ok.injEq] at ht
              exact ht.symm
            | cons rr rrest ihk =>
              intro t t' hnc ht
              unfold region_elem_trace at ht
              cases hz : region_elem_step data_files options p rr t with
              | error e =>
                rw [hz] at ht
                exact Except.noConfusion ht
              | ok t₁ =>
                rw [hz] at ht
                have ht1 : t₁ = t :=
                  region_elem_step_not_contained
                    (hnc rr (List.mem_cons_self rr rrest)) hz
                rw [ht1] at ht
                exact ihk t t' (fun r'' hm => hnc r'' (List.mem_cons_of_mem rr hm)) ht
          have hnone : ∀ r'' ∈ rest, ¬ containsPos r'' s₁.pos := by
            intro r'' hm hcc
            exact hrc ⟨r'', hm, hcc⟩
          have hss : s' = s₁ := hkeep rest s₁ s' hnone h
          rwa [hss]
        · exfalso
          apply hrc
          exact ⟨r', hrm, by rwa [hpos1.1]⟩

lemma phase_fallback_zero {options : Args} (rng : List Nat)
    (hz : options.homozygous_as_counts = "zero") :
    phase_fallback options rng = (none, rng) := by
  unfold phase_fallback
  rw [if_neg (by rw [hz]; decide)]

lemma phase_reference_phased {ts : SNP} {options : Args} (rng : List Nat)
    (h1 : ts.haps.1 ≠ ts.haps.2) (h2 : ts.haps.1 ≠ HAP_UNDEF) :
    phase_reference (some ts) options rng =
      (some (if ts.haps.1 = 0 then ((0 : Nat), (1 : Nat)) else (1, 0)), rng) := by
  show (if ts.haps.1 ≠ ts.haps.2 ∧ ts.haps.1 ≠ HAP_UNDEF then
      if ts.haps.1 = 0 then (some (0, 1), rng) else (some (1, 0), rng)
    else phase_fallback options rng) =
    (some (if ts.haps.1 = 0 then ((0 : Nat), (1 : Nat)) else (1, 0)), rng)
  rw [if_pos (And.intro h1 h2)]
  by_cases h0 : ts.haps.1 = 0 <;> simp [h0]

lemma phase_reference_fallback_zero {tso : Option SNP} {options : Args}
    (rng : List Nat) (hz : options.homozygous_as_counts = "zero")
    (hfb : tso = none ∨
      ∃ ts, tso = some ts ∧ (ts.haps.1 = ts.haps.2 ∨ ts.haps.1 = HAP_UNDEF)) :
    phase_reference tso options rng = (none, rng) := by
  rcases hfb with h | ⟨ts, hts, hcond⟩
  · subst h
    show phase_fallback options rng = (none, rng)
    exact phase_fallback_zero rng hz
  · subst hts
    show (if ts.haps.1 ≠ ts.haps.2 ∧ ts.haps.1 ≠ HAP_UNDEF then
        if ts.haps.1 = 0 then (some (0, 1), rng) else (some (1, 0), rng)
      else phase_fallback options rng) = (none, rng)
    rw [if_neg (by
      rintro ⟨ha, hb⟩
      rcases hcond with hc | hc
      · exact ha hc
      · exact hb hc)]
    exact phase_fallback_zero rng hz

lemma set_one_snp_phased_conserves {options : Args} {pr : Nat × Nat}
    {rc ac oc : List Int} {r : Coord} {s : SNP} {rng : List Nat} {s' : SNP}
    {rng₂ : List Nat}
    (h : set_one_snp options (some pr) rc ac oc r s rng = Except.ok (s', rng₂))
    (hc : containsPos r s.pos) :
    ∃ rcv acv x y, rc[(s.pos - r.start).toNat]? = some rcv ∧
      ac[(s.pos - r.start).toNat]? = some acv ∧
      s'.ref_hap_count = some x ∧ s'.alt_hap_count = some y ∧
      x + y = rcv + acv := by
  unfold set_one_snp at h
  rw [if_pos (show r.start ≤ s.pos ∧ s.pos ≤ r.«end» from hc)] at h
  obtain ⟨ri, ai⟩ := pr
  cases hx1 : rc[(s.pos - r.start).toNat]? <;>
    cases hx2 : ac[(s.pos - r.start).toNat]? <;>
    cases hx3 : oc[(s.pos - r.start).toNat]? <;>
    simp only [hx1, hx2, hx3] at h
  all_goals try exact Except.noConfusion h
  rename_i rcv acv ocv
  by_cases h0 : hapAt s.haps ri = 0
  · rw [if_pos h0] at h
    simp only [Except.ok.injEq, Prod.mk.injEq] at h
    refine ⟨rcv, acv, rcv, acv, rfl, rfl, ?_, ?_, rfl⟩ <;> rw [← h.1]
  · rw [if_neg h0] at h
    by_cases h1 : hapAt s.haps ri = 1
    · rw [if_pos h1] at h
      simp only [Except.ok.injEq, Prod.mk.injEq] at h
      refine ⟨rcv, acv, acv, rcv, rfl, rfl, ?_, ?_, by omega⟩ <;> rw [← h.1]
    · rw [if_neg h1] at h
      exact Except.noConfusion h

lemma set_one_snp_zero_sets {options : Args} {rc ac oc : List Int}
    {r : Coord} {s : SNP} {rng : List Nat} {s' : SNP} {rng₂ : List Nat}
    (hz : options.homozygous_as_counts = "zero")
    (h : set_one_snp options none rc ac oc r s rng = Except.ok (s', rng₂))
    (hc : containsPos r s.pos) :
    s'.ref_hap_count = some 0 ∧ s'.alt_hap_count = some 0 ∧
      ∃ ocv, oc[(s.pos - r.start).toNat]? = some ocv ∧
        s'.other_count = some ocv := by
  unfold set_one_snp at h
  rw [if_pos (show r.start ≤ s.pos ∧ s.pos ≤ r.«end» from hc)] at h
  cases hx1 : rc[(s.pos - r.start).toNat]? <;>
    cases hx2 : ac[(s.pos - r.start).toNat]? <;>
    cases hx3 : oc[(s.pos - r.start).toNat]? <;>
    simp only [hx1, hx2, hx3] at h
  all_goals try exact Except.noConfusion h
  rename_i rcv acv ocv
  rw [hz] at h
  simp only [reduceIte, Except.ok.injEq, Prod.mk.injEq] at h
  exact ⟨by rw [← h.1], by rw [← h.1], ocv, rfl, by rw [← h.1]⟩

lemma region_elem_step_phased_post {data_files : DataFiles} {options : Args}
    {pr : Nat × Nat} {r : Coord} {s s' : SNP} (hstart : 1 ≤ r.start)
    (hc : containsPos r s.pos)
    (h : region_elem_step data_files options (some pr) r s = Except.ok s') :
    ∃ rcv acv x y, rawRef data_files r s'.pos = some rcv ∧
      rawAlt data_files r s'.pos = some acv ∧
      s'.ref_hap_count = some x ∧ s'.alt_hap_count = some y ∧
      x + y = rcv + acv := by
  have hpos := region_elem_step_fields h
  unfold region_elem_step at h
  cases hn1 : data_files.ref_count_h5 ("/" ++ r.chrom.name) <;>
    cases hn2 : data_files.alt_count_h5 ("/" ++ r.chrom.name) <;>
    cases hn3 : data_files.other_count_h5 ("/" ++ r.chrom.name) <;>
    simp only [hn1, hn2, hn3] at h
  all_goals try exact Except.noConfusion h
  rename_i refN altN otherN
  cases hx : set_one_snp options (some pr) (pySlice refN (r.start - 1) r.«end»)
      (pySlice altN (r.start - 1) r.«end»)
      (pySlice otherN (r.start - 1) r.«end») r s [] with
  | error e =>
    rw [hx] at h
    exact Except.noConfusion h
  | ok q =>
    obtain ⟨s'', rngq⟩ := q
    rw [hx] at h
    simp only [Except.map, Except.ok.injEq] at h
    subst h
    obtain ⟨rcv, acv, x, y, hrc, hac, hx1, hx2, hsum⟩ :=
      set_one_snp_phased_conserves hx hc
    have hoff : (r.start - 1).toNat + (s.pos - r.start).toNat =
        (s.pos - 1).toNat := by
      obtain ⟨hc1, hc2⟩ := hc
      omega
    refine ⟨rcv, acv, x, y, ?_, ?_, hx1, hx2, hsum⟩
    · unfold rawRef
      rw [hpos.1, hn1]
      have := pySlice_getElem_some
        (show (0 : Int) ≤ r.start - 1 by omega) hrc
      rw [hoff] at this
      simpa using this
    · unfold rawAlt
      rw [hpos.1, hn2]
      have := pySlice_getElem_some
        (show (0 : Int) ≤ r.start - 1 by omega) hac
      rw [hoff] at this
      simpa using this

lemma region_elem_step_zero_post {data_files : DataFiles} {options : Args}
    {r : Coord} {s s' : SNP} (hz : options.homozygous_as_counts = "zero")
    (hstart : 1 ≤ r.start) (hc : containsPos r s.pos)
    (h : region_elem_step data_files options none r s = Except.ok s') :
    s'.ref_hap_count = some 0 ∧ s'.alt_hap_count = some 0 ∧
      ∃ ocv, rawOther data_files r s'.pos = some ocv ∧
        s'.other_count = some ocv := by
  have hpos := region_elem_step_fields h
  unfold region_elem_step at h
  cases hn1 : data_files.ref_count_h5 ("/" ++ r.chrom.name) <;>
    cases hn2 : data_files.alt_count_h5 ("/" ++ r.chrom.name) <;>
    cases hn3 : data_files.other_count_h5 ("/" ++ r.chrom.name) <;>
    simp only [hn1, hn2, hn3] at h
  all_goals try exact Except.noConfusion h
  rename_i refN altN otherN
  cases hx : set_one_snp options none (pySlice refN (r.start - 1) r.«end»)
      (pySlice altN (r.start - 1) r.«end»)
      (pySlice otherN (r.start - 1) r.«end») r s [] with
  | error e =>
    rw [hx] at h
    exact Except.noConfusion h
  | ok q =>
    obtain ⟨s'', rngq⟩ := q
    rw [hx] at h
    simp only [Except.map, Except.ok.injEq] at h
    subst h
    obtain ⟨hz1, hz2, ocv, hoc, hocs⟩ := set_one_snp_zero_sets hz hx hc
    have hoff : (r.start - 1).toNat + (s.pos - r.start).toNat =
        (s.pos - 1).toNat := by
      obtain ⟨hc1, hc2⟩ := hc
      omega
    refine ⟨hz1, hz2, ocv, ?_, hocs⟩
    unfold rawOther
    rw [hpos.1, hn3]
    have := pySlice_getElem_some
      (show (0 : Int) ≤ r.start - 1 by omega) hoc
    rw [hoff] at this
    simpa using this

/-- C1: for a heterozygous test SNP with defined haplotype indices,
`set_snp_counts` consults no randomness (its SNP result is independent of
the random stream and the stream is returned unconsumed), and on success
every linked SNP contained in a region has ref-hap-count + alt-hap-count
equal to the raw reference-matching count plus the raw alternate-matching
count stored at that SNP's position (regions being 1-based,
`1 ≤ r.start`). -/
theorem claim_C1 (data_files : DataFiles) (region_list : List Coord)
    (snps : List SNP) (ts : SNP) (options : Args)
    (h1 : ts.haps.1 ≠ ts.haps.2) (h2 : ts.haps.1 ≠ HAP_UNDEF)
    (h3 : ts.haps.2 ≠ HAP_UNDEF) :
    (∀ rng rng' : List Nat,
      Except.map Prod.fst
          (set_snp_counts data_files region_list snps (some ts) options rng) =
        Except.map Prod.fst
          (set_snp_counts data_files region_list snps (some ts) options rng')) ∧
    (∀ (rng : List Nat) (snps' : List SNP) (rng₂ : List Nat),
      set_snp_counts data_files region_list snps (some ts) options rng =
        Except.ok (snps', rng₂) →
      rng₂ = rng ∧
      ((∀ r ∈ region_list, 1 ≤ r.start) →
        ∀ (k : Nat) (s' : SNP), snps'[k]? = some s' →
          (∃ r ∈ region_list, containsPos r s'.pos) →
          ∃ r ∈ region_list, containsPos r s'.pos ∧
            ∃ rcv acv x y, rawRef data_files r s'.pos = some rcv ∧
              rawAlt data_files r s'.pos = some acv ∧
              s'.ref_hap_count = some x ∧ s'.alt_hap_count = some y ∧
              x + y = rcv + acv)) := by
  have hP : ∀ rng : List Nat, phase_reference (some ts) options rng =
      (some (if ts.haps.1 = 0 then ((0 : Nat), (1 : Nat)) else (1, 0)), rng) :=
    fun rng => phase_reference_phased rng h1 h2
  constructor
  · intro rng rng'
    unfold set_snp_counts
    rw [hP rng, hP rng']
    dsimp only
    rw [set_regions_loop_nodraw region_list snps rng rng' (Or.inl (Option.isSome_some))]
    cases hz : set_regions_loop data_files options
        (some (if ts.haps.1 = 0 then ((0 : Nat), (1 : Nat)) else (1, 0)))
        region_list snps rng' with
    | error e => simp [Except.map]
    | ok q => simp [Except.map]
  · intro rng snps' rng₂ h
    unfold set_snp_counts at h
    rw [hP rng] at h
    dsimp only at h
    obtain ⟨hr, hlen, helem⟩ :=
      set_regions_loop_elem region_list snps rng snps' rng₂ (Or.inl (Option.isSome_some)) h
    refine ⟨hr, ?_⟩
    intro hstart k s' hk hex
    have hks' : k < snps'.length := by
      by_contra hge
      rw [List.getElem?_eq_none (by omega)] at hk
      exact Option.noConfusion hk
    have hks : k < snps.length := by omega
    have hk0 : snps[k]? = some (snps.get ⟨k, hks⟩) := by
      rw [List.getElem?_eq_getElem hks]
      rfl
    have htr := helem k (snps.get ⟨k, hks⟩) s' hk0 hk
    have H : ∀ r ∈ region_list, ∀ (t t' : SNP), containsPos r t.pos →
        region_elem_step data_files options
          (some (if ts.haps.1 = 0 then ((0 : Nat), (1 : Nat)) else (1, 0)))
          r t = Except.ok t' →
        (∃ r' ∈ region_list, containsPos r' t'.pos ∧
          ∃ rcv acv x y, rawRef data_files r' t'.pos = some rcv ∧
            rawAlt data_files r' t'.pos = some acv ∧
            t'.ref_hap_count = some x ∧ t'.alt_hap_count = some y ∧
            x + y = rcv + acv) := by
      intro r hr t t' hc hstep
      have hpos := region_elem_step_fields hstep
      obtain ⟨rcv, acv, x, y, ha1, ha2, ha3, ha4, ha5⟩ :=
        region_elem_step_phased_post (hstart r hr) hc hstep
      exact ⟨r, hr, by rw [hpos.1]; exact hc, rcv, acv, x, y,
        ha1, ha2, ha3, ha4, ha5⟩
    have hmain := region_elem_trace_post
      (fun t' => ∃ r' ∈ region_list, containsPos r' t'.pos ∧
        ∃ rcv acv x y, rawRef data_files r' t'.pos = some rcv ∧
          rawAlt data_files r' t'.pos = some acv ∧
          t'.ref_hap_count = some x ∧ t'.alt_hap_count = some y ∧
          x + y = rcv + acv)
      region_list H region_list (fun r hr => hr) (snps.get ⟨k, hks⟩) s' htr
    have hex0 : ∃ r ∈ region_list, containsPos r (snps.get ⟨k, hks⟩).pos := by
      obtain ⟨r, hr, hc⟩ := hex
      exact ⟨r, hr, by rw [← hmain.1]; exact hc⟩
    exact hmain.2 hex0

/-- C2, counterexample: a test SNP with haplotype pair `(1, -1)` has an
undefined (second) haplotype index, so by the claim it must not be treated
as phased (under policy `zero` the fallback would leave the pair
unestablished); the code nevertheless establishes `(ref_idx, alt_idx) =
(1, 0)` from it without consulting the fallback, and the slot it picks as
`ref_idx` carries the undefined allele, not allele 0. -/
theorem claim_C2_counterexample :
    phase_reference (some (exSnp 5 (1, -1))) zeroArgs [] = (some (1, 0), []) ∧
    (exSnp 5 (1, -1)).haps.2 = HAP_UNDEF ∧
    hapAt (exSnp 5 (1, -1)).haps 1 ≠ 0 := by
  refine ⟨rfl, rfl, by decide⟩

/-- C2, amended: the test SNP is treated as phased (the `(ref_idx, alt_idx)`
pair is established from its haplotype pair, independently of the fallback
policy and of the random stream) iff the test SNP exists, its two haplotype
indices differ, and its FIRST index is not the undefined sentinel; `ref_idx`
is 0 when the first slot's allele is 0 and otherwise `ref_idx` is 1, with
`alt_idx` the other slot. -/
theorem claim_C2_amended : ∀ ts : SNP,
    ((∃ p, ∀ (options : Args) (rng : List Nat),
        phase_reference (some ts) options rng = (some p, rng)) ↔
      (ts.haps.1 ≠ ts.haps.2 ∧ ts.haps.1 ≠ HAP_UNDEF)) ∧
    (ts.haps.1 ≠ ts.haps.2 → ts.haps.1 ≠ HAP_UNDEF →
      ∀ (options : Args) (rng : List Nat),
        phase_reference (some ts) options rng =
          (some (if ts.haps.1 = 0 then ((0 : Nat), (1 : Nat)) else (1, 0)),
            rng)) ∧
    (¬ ∃ p, ∀ (options : Args) (rng : List Nat),
        phase_reference none options rng = (some p, rng)) := by
  intro ts
  refine ⟨⟨?_, ?_⟩, ?_, ?_⟩
  · rintro ⟨p, hp⟩
    by_contra hcond
    have hcond' : ts.haps.1 = ts.haps.2 ∨ ts.haps.1 = HAP_UNDEF := by
      rcases not_and_or.mp hcond with hc | hc
      · exact Or.inl (not_not.mp hc)
      · exact Or.inr (not_not.mp hc)
    have hzero : phase_reference (some ts) zeroArgs [] = (none, []) :=
      phase_reference_fallback_zero [] rfl (Or.inr ⟨ts, rfl, hcond'⟩)
    have := hp zeroArgs []
    rw [hzero] at this
    simp at this
  · rintro ⟨hne, hun⟩
    exact ⟨if ts.haps.1 = 0 then (0, 1) else (1, 0),
      fun options rng => phase_reference_phased rng hne hun⟩
  · intro hne hun options rng
    exact phase_reference_phased rng hne hun
  · rintro ⟨p, hp⟩
    have h0 := hp zeroArgs []
    have hz : phase_reference none zeroArgs [] = (none, []) :=
      phase_reference_fallback_zero [] rfl (Or.inl rfl)
    rw [hz] at h0
    simp at h0

/-- C2, amended, witness at the concrete test SNP `(1, 0)`. -/
theorem claim_C2_amended_witness :
    phase_reference (some (exSnp 5 (1, 0))) zeroArgs [7] =
      (some (1, 0), [7]) := by
  have h := (claim_C2_amended (exSnp 5 (1, 0))).2.1 (by decide) (by decide)
    zeroArgs [7]
  simpa using h

/-- C4, counterexample: with target size 20 the sub-interval `[100,149]`
recenters to `[114,134]` (Python 2 floor division gives midpoint 124), not
to the `[115,134]` the claim states. -/
theorem claim_C4_counterexample :
    get_target_regions args20 exChrom exWords =
      Except.ok [⟨exChrom, 114, 134⟩] ∧
    get_target_regions args20 exChrom exWords ≠
      Except.ok [⟨exChrom, 115, 134⟩] := by
  constructor
  · rfl
  · intro h
    rw [show get_target_regions args20 exChrom exWords =
        Except.ok [⟨exChrom, 114, 134⟩] from rfl] at h
    simp at h

/-- C4, amended: with a target-region-size override, a sub-interval whose
natural length differs from the target is recentered around its floor
midpoint (`[100,149]` with size 20 gives `[114,134]`), the recentered start
is clamped below at 1 and the recentered end is clamped above at the
chromosome length (size 200 with chromosome length 120 gives end 120). -/
theorem claim_C4_amended :
    get_target_regions args20 exChrom exWords =
      Except.ok [⟨exChrom, 114, 134⟩] ∧
    get_target_regions args200 exChromShort exWords =
      Except.ok [⟨exChromShort, 24, 120⟩] ∧
    ∀ (size : Int) (chrom : Chromosome) (a b : Int),
      1 ≤ (resize_region size chrom a b).start ∧
      (resize_region size chrom a b).«end» ≤ chrom.length := by
  refine ⟨by rfl, by rfl, ?_⟩
  intro size chrom a b
  unfold resize_region
  constructor <;> dsimp only <;> split <;> omega

/-- C7: evaluating the code on a region list that spans two chromosomes.
The run is aborted, but not by a `CoordError`: line 270 reads the unbound
name `snp_indx_tab` in the first loop iteration, before the cross-chromosome
check on line 266 is ever reached for the second region (and that check
itself names the unbound `CoordError`), so a `NameError` is raised.  The
start/end length mismatch half of the claim does raise
`coord.CoordError` (line 530). -/
theorem claim_C7_bug :
    get_region_snps exDataFilesIdx [⟨exChrom, 1, 1⟩, ⟨exChromB, 1, 1⟩] 0 =
      Except.error (PyError.nameError "snp_indx_tab") ∧
    get_target_regions zeroArgs exChrom
        ["chr1", "5", "x", "A", "T", "x", "x", "1;5", "9"] =
      Except.error
        (PyError.coordError "number of start and end positions do not match") := by
  exact ⟨by rfl, by rfl⟩

/-- C9: `get_genomewide_count` raises `NameError` for every input (line 505
passes the unbound name `gdb` to `chromstat.get_stats`), and its result does
not depend on its `h5file` parameter, so the genome-wide normalization
constant is never computed. -/
theorem claim_C9 : ∀ (h5file h5file' : H5File)
    (chrom_list : List Chromosome),
    get_genomewide_count h5file chrom_list =
      Except.error (PyError.nameError "gdb") ∧
    get_genomewide_count h5file chrom_list =
      get_genomewide_count h5file' chrom_list :=
  fun _ _ _ => ⟨rfl, rfl⟩

/-- C10: `get_het_snps` keeps exactly the SNPs whose two haplotype indices
differ — including a pair with an undefined index such as `(0, -1)` — and
passing such a SNP to `set_snp_counts` with a phased test SNP whose
`ref_idx` lands on the undefined slot raises the
"expected haplotype to be defined" `ValueError` (line 424). -/
theorem claim_C10 :
    (∀ (l : List SNP) (s : SNP),
      s ∈ get_het_snps l ↔ s ∈ l ∧ s.haps.1 ≠ s.haps.2) ∧
    get_het_snps [exSnp 2 (0, -1)] = [exSnp 2 (0, -1)] ∧
    set_snp_counts exDataFiles [exRegion] (get_het_snps [exSnp 2 (0, -1)])
        (some (exSnp 5 (1, 0))) zeroArgs [] =
      Except.error (PyError.valueError "expected haplotype to be defined") := by
  refine ⟨?_, rfl, rfl⟩
  intro l s
  unfold get_het_snps
  rw [List.mem_filter]
  simp [bne_iff_ne]

/-- C1, witness: the determinism half at a concrete phased configuration,
with every hypothesis discharged at the concrete test SNP `(0, 1)`. -/
theorem claim_C1_witness :
    Except.map Prod.fst
        (set_snp_counts exDataFiles [exRegion] [exSnp 2 (0, 1)]
          (some (exSnp 5 (0, 1))) zeroArgs [0]) =
      Except.map Prod.fst
        (set_snp_counts exDataFiles [exRegion] [exSnp 2 (0, 1)]
          (some (exSnp 5 (0, 1))) zeroArgs [1]) :=
  (claim_C1 exDataFiles [exRegion] [exSnp 2 (0, 1)] (exSnp 5 (0, 1)) zeroArgs
    (by decide) (by decide) (by decide)).1 [0] [1]

/-- C3, counterexample: the test SNP `(0, -1)` has an undefined (second)
haplotype index and the policy is `zero`, so by the claim every linked SNP
must get ref-hap-count = alt-hap-count = 0; the code instead takes the
phased branch (it checks only the first index) and assigns the raw counts
5 and 3. -/
theorem claim_C3_counterexample :
    (exSnp 5 (0, -1)).haps.2 = HAP_UNDEF ∧
    zeroArgs.homozygous_as_counts = "zero" ∧
    set_snp_counts exDataFiles [exRegion] [exSnp 2 (0, 1)]
        (some (exSnp 5 (0, -1))) zeroArgs [] =
      Except.ok ([exC3out], []) ∧
    exC3out.ref_hap_count ≠ some 0 := by
  refine ⟨rfl, rfl, by rfl, by decide⟩

/-- C3, amended: under policy `zero`, when the fallback actually applies —
the test SNP is missing, its haplotype indices are equal, or its FIRST
haplotype index is the undefined sentinel — every linked SNP contained in a
region gets ref-hap-count = 0 and alt-hap-count = 0 regardless of the raw
counts, while its other-count is still set to the raw other-allele count at
its position. -/
theorem claim_C3_amended (data_files : DataFiles) (region_list : List Coord)
    (snps : List SNP) (tso : Option SNP) (options : Args)
    (hz : options.homozygous_as_counts = "zero")
    (hfb : tso = none ∨
      ∃ ts, tso = some ts ∧ (ts.haps.1 = ts.haps.2 ∨ ts.haps.1 = HAP_UNDEF))
    (hstart : ∀ r ∈ region_list, 1 ≤ r.start) :
    ∀ (rng : List Nat) (snps' : List SNP) (rng₂ : List Nat),
      set_snp_counts data_files region_list snps tso options rng =
        Except.ok (snps', rng₂) →
      ∀ (k : Nat) (s' : SNP), snps'[k]? = some s' →
        (∃ r ∈ region_list, containsPos r s'.pos) →
        s'.ref_hap_count = some 0 ∧ s'.alt_hap_count = some 0 ∧
          ∃ r ∈ region_list, containsPos r s'.pos ∧
            ∃ ocv, rawOther data_files r s'.pos = some ocv ∧
              s'.other_count = some ocv := by
  intro rng snps' rng₂ h
  unfold set_snp_counts at h
  rw [phase_reference_fallback_zero rng hz hfb] at h
  dsimp only at h
  obtain ⟨hr, hlen, helem⟩ :=
    set_regions_loop_elem region_list snps rng snps' rng₂ (Or.inr hz) h
  intro k s' hk hex
  have hks' : k < snps'.length := by
    by_contra hge
    rw [List.getElem?_eq_none (by omega)] at hk
    exact Option.noConfusion hk
  have hks : k < snps.length := by omega
  have hk0 : snps[k]? = some (snps.get ⟨k, hks⟩) := by
    rw [List.getElem?_eq_getElem hks]
    rfl
  have htr := helem k (snps.get ⟨k, hks⟩) s' hk0 hk
  have H : ∀ r ∈ region_list, ∀ (t t' : SNP), containsPos r t.pos →
      region_elem_step data_files options none r t = Except.ok t' →
      (t'.ref_hap_count = some 0 ∧ t'.alt_hap_count = some 0 ∧
        ∃ r' ∈ region_list, containsPos r' t'.pos ∧
          ∃ ocv, rawOther data_files r' t'.pos = some ocv ∧
            t'.other_count = some ocv) := by
    intro r hr' t t' hc hstep
    have hpos := region_elem_step_fields hstep
    obtain ⟨hz1, hz2, ocv, ho1, ho2⟩ :=
      region_elem_step_zero_post hz (hstart r hr') hc hstep
    exact ⟨hz1, hz2, r, hr', by rw [hpos.1]; exact hc, ocv, ho1, ho2⟩
  have hmain := region_elem_trace_post
    (fun t' => t'.ref_hap_count = some 0 ∧ t'.alt_hap_count = some 0 ∧
      ∃ r' ∈ region_list, containsPos r' t'.pos ∧
        ∃ ocv, rawOther data_files r' t'.pos = some ocv ∧
          t'.other_count = some ocv)
    region_list H region_list (fun r hr' => hr') (snps.get ⟨k, hks⟩) s' htr
  have hex0 : ∃ r ∈ region_list, containsPos r (snps.get ⟨k, hks⟩).pos := by
    obtain ⟨r, hr', hc⟩ := hex
    exact ⟨r, hr', by rw [← hmain.1]; exact hc⟩
  exact hmain.2 hex0

/-- C3, amended, witness: a missing test SNP under policy `zero` at the
concrete configuration; the linked SNP at position 2 gets counts (0, 0) and
other-count 2. -/
theorem claim_C3_amended_witness :
    (let out := set_snp_counts exDataFiles [exRegion] [exSnp 2 (0, 1)]
      none zeroArgs []
     out = Except.ok ([{ (exSnp 2 (0, 1)) with
       ref_hap_count := some 0
       alt_hap_count := some 0
       other_count := some 2 }], [])) ∧
    ({ (exSnp 2 (0, 1)) with
       ref_hap_count := some 0
       alt_hap_count := some 0
       other_count := some 2 } : SNP).ref_hap_count = some 0 := by
  constructor
  · rfl
  · exact (claim_C3_amended exDataFiles [exRegion] [exSnp 2 (0, 1)] none
      zeroArgs rfl (Or.inl rfl) (by decide) [] _ [] (by rfl) 0 _ (by rfl)
      ⟨exRegion, by decide, by decide⟩).1

/-- C5, counterexample: the source normalizes a sample entry with
`replace("NA", "")`, which removes every occurrence of `"NA"`, not a fixed
prefix: for the entry `"1NA8"` the code matches the identifier `"18"` (so
the scan returns index 1), while stripping an `"NA"` prefix would leave
`"1NA8"`, which does not match. -/
theorem claim_C5_counterexample :
    lookup_individual_index ["zz 1", "1NA8 x"] "18" = Except.ok 1 ∧
    specStripNAFront "1NA8" ≠ "18" ∧
    pyReplace "1NA8" "NA" "" = "18" := by
  refine ⟨by rfl, by decide, by rfl⟩

/-- C5, amended: `lookup_individual_index` performs a linear scan of the
sample lines, normalizes each entry's first column by removing every
occurrence of the substring `"NA"`, returns the 0-based index of the first
match, and raises the not-found error (`ValueError`, the spec's
`IndividualNotFoundError`) when no entry matches — provided every line has
a first column (a blank line raises `IndexError` instead). -/
theorem claim_C5_amended (sample_lines : List String) (ind_name : String)
    (hw : ∀ l ∈ sample_lines, pySplitWhitespace (pyRstrip l) ≠ []) :
    lookup_individual_index sample_lines ind_name =
      match sample_lines.findIdx? (fun l =>
          pyReplace ((pySplitWhitespace (pyRstrip l))[0]?.getD "") "NA" ""
            == ind_name) with
      | some i => Except.ok i
      | none =>
        Except.error (PyError.valueError "individual is not in samples file") := by
  have key : ∀ (ls : List String) (idx : Nat),
      (∀ l ∈ ls, pySplitWhitespace (pyRstrip l) ≠ []) →
      lookup_individual_index_scan ind_name ls idx =
        match ls.findIdx? (fun l =>
            pyReplace ((pySplitWhitespace (pyRstrip l))[0]?.getD "") "NA" ""
              == ind_name) idx with
        | some i => Except.ok i
        | none =>
          Except.error
            (PyError.valueError "individual is not in samples file") := by
    intro ls
    induction ls with
    | nil => intro idx _; rfl
    | cons line rest ih =>
      intro idx hw'
      have hfirst : pySplitWhitespace (pyRstrip line) ≠ [] :=
        hw' line (List.mem_cons_self line rest)
      obtain ⟨w0, tl, hw0⟩ : ∃ w0 tl, pySplitWhitespace (pyRstrip line) = w0 :: tl := by
        cases hws : pySplitWhitespace (pyRstrip line) with
        | nil => exact absurd hws hfirst
        | cons a b => exact ⟨a, b, rfl⟩
      unfold lookup_individual_index_scan
      rw [hw0]
      rw [List.findIdx?_cons]
      simp only [hw0, List.getElem?_cons_zero, Option.getD_some]
      by_cases hmatch : pyReplace w0 "NA" "" = ind_name
      · rw [if_pos hmatch, if_pos (by rw [beq_iff_eq]; exact hmatch)]
      · rw [if_neg hmatch, if_neg (by rw [beq_iff_eq]; exact hmatch)]
        exact ih (idx + 1) (fun l hm => hw' l (List.mem_cons_of_mem line hm))
  exact key sample_lines 0 hw

/-- C5, amended, witness at a concrete two-entry sample list. -/
theorem claim_C5_amended_witness :
    lookup_individual_index ["NA12878 c1", "NA18505 c1"] "18505" =
      Except.ok 1 := by
  rw [claim_C5_amended ["NA12878 c1", "NA18505 c1"] "18505" (by decide)]
  rfl

/-- C6: a non-comment input line whose second field is the literal `"NA"`
makes the loop body emit exactly the `write_NA_line` row — a row of exactly
15 `"NA"` tokens — and the result does not depend on the data files, the
chromosome table, the options, or the individual index, so no count-track
or SNP-table lookup is performed for that line. -/
theorem claim_C6 (chrom_dict chrom_dict' : String → Option Chromosome)
    (args args' : Args) (data_files data_files' : DataFiles)
    (ind_idx ind_idx' : Nat) (line : String)
    (hc : pyStartsWith line "#" = false)
    (hna : (pySplitWhitespace (pyRstrip line))[1]? = some "NA") :
    main_process_line chrom_dict args data_files ind_idx line =
      Except.ok [write_NA_line] ∧
    main_process_line chrom_dict args data_files ind_idx line =
      main_process_line chrom_dict' args' data_files' ind_idx' line ∧
    write_NA_line = pyJoin " " (List.replicate 15 "NA") ++ "\n" ∧
    pySplitOn (pyJoin " " (List.replicate 15 "NA")) ' ' =
      List.replicate 15 "NA" := by
  have key : ∀ (cd : String → Option Chromosome) (a : Args)
      (df : DataFiles) (ii : Nat),
      main_process_line cd a df ii line = Except.ok [write_NA_line] := by
    intro cd a df ii
    unfold main_process_line
    simp only [hc, Bool.false_eq_true, if_false]
    rw [hna]
    dsimp only
    rw [if_pos rfl]
  exact ⟨key _ _ _ _, (key _ _ _ _).trans (key _ _ _ _).symm, rfl, by rfl⟩

/-- C6, witness at the concrete line `"chr1 NA"`. -/
theorem claim_C6_witness :
    main_process_line (fun _ => none) zeroArgs emptyDataFiles 0 "chr1 NA" =
      Except.ok [write_NA_line] :=
  (claim_C6 (fun _ => none) (fun _ => some exChrom) zeroArgs args20
    emptyDataFiles exDataFiles 0 1 "chr1 NA" (by rfl) (by rfl)).1

/-- C8: on any non-empty region list whose getNode calls succeed and whose
first region's interval holds at least one indexed SNP, `get_region_snps`
raises `NameError` (line 270 reads `snp_indx_tab`, but the SNP index node
was bound as `snp_idx_tab`), before any SNP record is built, so the
SNP-extraction path can never return successfully. -/
theorem claim_C8 (data_files : DataFiles) (r : Coord) (rest : List Coord)
    (ind_idx : Nat) (snpT : List SnpRow) (hapT : List (List Int))
    (genoT : List (List Rat)) (idxT : List Int)
    (h1 : data_files.snp_tab_h5 ("/" ++ r.chrom.name) = some snpT)
    (h2 : data_files.hap_h5 ("/" ++ r.chrom.name) = some hapT)
    (h3 : data_files.geno_prob_h5 ("/" ++ r.chrom.name) = some genoT)
    (h4 : data_files.snp_index_h5 ("/" ++ r.chrom.name) = some idxT)
    (h5 : (pySlice idxT (r.start - 1) r.«end»).any
      (fun v => v != SNP_UNDEF) = true) :
    get_region_snps data_files (r :: rest) ind_idx =
      Except.error (PyError.nameError "snp_indx_tab") := by
  unfold get_region_snps
  dsimp only
  rw [h1, h2, h3, h4]
  unfold get_region_snps_loop
  rw [if_neg (fun hne => hne rfl), if_neg (by decide)]

/-- C8, witness: a concrete single-region list over `exDataFilesIdx`, whose
index table holds the indexed SNP row 3 inside the interval `[1,1]`. -/
theorem claim_C8_witness :
    get_region_snps exDataFilesIdx [⟨exChrom, 1, 1⟩] 0 =
      Except.error (PyError.nameError "snp_indx_tab") :=
  claim_C8 exDataFilesIdx ⟨exChrom, 1, 1⟩ [] 0 [] [] [] [3]
    (by rfl) (by rfl) (by rfl) (by rfl) (by rfl)
